import Mathlib

set_option maxRecDepth 16000

/-!
Verification of the Envoy bootstrap configuration renderer
(`internal/xds/bootstrap`): parameter building from an optional
`ProxyMetrics` policy (sink deduplication by "host:port" key, Prometheus
flag, stats-matcher baseline append) and rendering of the fixed
`bootstrap.yaml.tpl` template.

Machine integers: the ports are Go `int32` values.  No arithmetic is ever
performed on them (they are only compared and printed in decimal), so they
are modelled as `Int`; overflow cannot occur anywhere in this code.
-/

/-- Decimal digit character, `48 + n` is the code point of the digit `n`
(used by Go's `fmt` "%d" verb and by `text/template` integer printing). -/
def digitChar (n : Nat) : Char := Char.ofNat (48 + n)

/-- Decimal rendering of a natural number, most significant digit first.
Embeds the decimal integer formatting used by `fmt.Sprintf("%d", ...)` and
by `text/template` when a numeric field is interpolated. -/
def natDecimal (n : Nat) : List Char :=
  if h : n < 10 then [digitChar n]
  else natDecimal (n / 10) ++ [digitChar (n % 10)]
termination_by n
decreasing_by exact Nat.div_lt_self (by omega) (by omega)

/-- Decimal rendering of an integer (ports are Go `int32`; `%d` prints a
leading minus sign for negative values). -/
def intDecimal (i : Int) : String :=
  if i < 0 then String.mk ('-' :: natDecimal i.natAbs)
  else String.mk (natDecimal i.natAbs)

/-- Decimal rendering of a `Nat` as a string (template loop indices). -/
def natDecimalStr (n : Nat) : String := String.mk (natDecimal n)

/-- Splitting a character list at every occurrence of a separator
character; embeds Go's `strings.Split` (with a one-character separator),
which returns the substrings between consecutive separators. -/
def splitChar (sep : Char) : List Char → List (List Char)
  | [] => [[]]
  | c :: rest =>
    if c = sep then [] :: splitChar sep rest
    else
      match splitChar sep rest with
      | [] => [[c]]
      | g :: gs => (c :: g) :: gs

/-- `strings.Split(s, sep)` for a one-character separator `sep`. -/
def goSplit (s : String) (sep : Char) : List String :=
  (splitChar sep s.data).map String.mk

/-! ### Policy input

The policy type `egcfgv1a1.ProxyMetrics` lives in `api/config/v1alpha1`,
which is not part of the sources here; only its shape is visible through
`GetRenderedBootstrapConfig` and the spec. -/

/-- Modelled from the spec: the OpenTelemetry target of a metrics sink,
an optional sub-object carrying a host string and a port
(`sink.OpenTelemetry.Host`, `sink.OpenTelemetry.Port`, a Go `int32`). -/
structure ProxyOpenTelemetrySink where
  Host : String
  Port : Int
deriving DecidableEq

/-- Modelled from the spec: one policy sink entry, optionally carrying an
OpenTelemetry target (`sink.OpenTelemetry` may be nil). -/
structure ProxySink where
  OpenTelemetry : Option ProxyOpenTelemetrySink
deriving DecidableEq

/-- Modelled from the spec: the policy's optional stats-matcher override
with three string-sequence fields
(`proxyMetrics.ProxyStatsMatcher.Inclusion{Prefixs,Suffixs,Regexps}`). -/
structure ProxyStatsMatcherInput where
  InclusionPrefixs : List String
  InclusionSuffixs : List String
  InclusionRegexps : List String
deriving DecidableEq

/-- Modelled from the spec: the optional policy object
`egcfgv1a1.ProxyMetrics` — a presence-only Prometheus sub-object, zero or
more sink entries, and an optional stats-matcher override. -/
structure ProxyMetrics where
  Prometheus : Option Unit
  Sinks : List ProxySink
  ProxyStatsMatcher : Option ProxyStatsMatcherInput
deriving DecidableEq

/-! ### Constants of `bootstrap.go` -/

def envoyGatewayXdsServerHost : String := "envoy-gateway"

def envoyAdminAddress : String := "127.0.0.1"

def envoyAdminPort : Int := 19000

def envoyAdminAccessLogPath : String := "/dev/null"

def DefaultXdsServerPort : Int := 18000

def envoyReadinessAddress : String := "0.0.0.0"

def EnvoyReadinessPort : Int := 19001

def EnvoyReadinessPath : String := "/ready"

def RequiredEnvoyStatsMatcherInclusionPrefixes : String :=
  "cluster_manager,listener_manager,server,cluster.xds-grpc"

/-! ### Parameter types of `bootstrap.go` -/

structure xdsServerParameters where
  Address : String
  Port : Int
deriving DecidableEq

structure metricSink where
  Address : String
  Port : Int
deriving DecidableEq

structure adminServerParameters where
  Address : String
  Port : Int
  AccessLogPath : String
deriving DecidableEq

structure readyServerParameters where
  Address : String
  Port : Int
  ReadinessPath : String
deriving DecidableEq

structure ProxyStatsMatcherParameters where
  InclusionPrefixs : List String
  InclusionSuffixs : List String
  InclusionRegexps : List String
deriving DecidableEq

structure bootstrapParameters where
  XdsServer : xdsServerParameters
  AdminServer : adminServerParameters
  ReadyServer : readyServerParameters
  EnablePrometheus : Bool
  OtelMetricSinks : List metricSink
  ProxyStatsMatcher : ProxyStatsMatcherParameters
deriving DecidableEq

structure bootstrapConfig where
  parameters : bootstrapParameters
  rendered : String
deriving DecidableEq

/-! ### The template `bootstrap.yaml.tpl`

Each definition below is one contiguous piece of the template, literal text
transcribed verbatim; `{{- ...}}` actions trim the whitespace (including
the newline) that precedes them, so every conditional or repeated block
begins with the newline that separates it from the preceding text. -/

/-- Template lines 1-10: the `admin:` section. -/
def adminSection (a : adminServerParameters) : String :=
  "admin:\n  access_log:\n  - name: envoy.access_loggers.file\n    typed_config:\n      \"@type\": type.googleapis.com/envoy.extensions.access_loggers.file.v3.FileAccessLog\n      path: "
    ++ a.AccessLogPath
    ++ "\n  address:\n    socket_address:\n      address: "
    ++ a.Address
    ++ "\n      port_value: "
    ++ intDecimal a.Port

/-- Template line 16: one `- prefix: "..."` pattern entry. -/
def prefixPattern (s : String) : String :=
  "\n      - prefix: \"" ++ s ++ "\""

/-- Template line 19: one `- suffix: "..."` pattern entry. -/
def suffixPattern (s : String) : String :=
  "\n      - suffix: \"" ++ s ++ "\""

/-- One escaped character of Go `text/template`'s `js` escaper
(`template.JSEscapeString`), which the template applies to each regex
entry; none of the theorems below depend on its behaviour, since every
statement involving regex entries keeps the escaper abstract or applies it
to an empty list. -/
def jsEscapeChar (c : Char) : List Char :=
  if c = '\\' then ['\\', '\\']
  else if c.toNat = 39 then ['\\', Char.ofNat 39]
  else if c = '"' then ['\\', '"']
  else if c = '<' then '\\' :: "u003C".data
  else if c = '>' then '\\' :: "u003E".data
  else if c = '&' then '\\' :: "u0026".data
  else if c = '=' then '\\' :: "u003D".data
  else [c]

/-- Go `template.JSEscapeString`, applied by the `js` template function. -/
def jsEscape (s : String) : String := String.mk ((s.data.map jsEscapeChar).flatten)

/-- Template lines 22-24: one `- safe_regex:` pattern entry (its regex is
passed through the `js` escaper). -/
def regexPattern (s : String) : String :=
  "\n      - safe_regex:\n          google_re2: \x7b\x7d\n          regex: \"" ++ jsEscape s ++ "\""

/-- Template lines 15-25: the rendered pattern entries, prefixes first,
then suffixes, then regexes, each list in its given order. -/
def patternsList (m : ProxyStatsMatcherParameters) : List String :=
  m.InclusionPrefixs.map prefixPattern
    ++ m.InclusionSuffixs.map suffixPattern
    ++ m.InclusionRegexps.map regexPattern

/-- Template lines 11-25: the `stats_config:` section. -/
def statsConfigSection (m : ProxyStatsMatcherParameters) : String :=
  "\nstats_config:\n  stats_matcher:\n    inclusion_list:\n      patterns:"
    ++ String.join (patternsList m)

/-- Template lines 26-39: the `dynamic_resources:` section (fixed text). -/
def dynamicResourcesSection : String :=
  "\ndynamic_resources:\n  ads_config:\n    api_type: DELTA_GRPC\n    transport_api_version: V3\n    grpc_services:\n    - envoy_grpc:\n        cluster_name: xds_cluster\n    set_node_on_first_message_only: true\n  lds_config:\n    ads: \x7b\x7d\n    resource_api_version: V3\n  cds_config:\n    ads: \x7b\x7d\n    resource_api_version: V3"

/-- Template lines 43-48: one `stats_sinks` entry; only the loop index
`$idx` is interpolated. -/
def statsSinkBlock (idx : Nat) : String :=
  "\n- name: \"envoy.stat_sinks.open_telemetry\"\n  typed_config:\n    \"@type\": type.googleapis.com/envoy.extensions.stat_sinks.open_telemetry.v3.SinkConfig\n    grpc_service:\n      envoy_grpc:\n        cluster_name: otel_metric_sink_"
    ++ natDecimalStr idx

/-- Template lines 40-50: the `stats_sinks:` section; the
`{{- if .OtelMetricSinks }}` guard omits the key entirely when the slice
is empty (an empty Go slice is falsy). -/
def statsSinksSection (sinks : List metricSink) : String :=
  if sinks.isEmpty then ""
  else "\nstats_sinks:" ++ String.join (sinks.enum.map (fun q => statsSinkBlock q.1))

/-- Template lines 68-76: the Prometheus scrape route
(`/stats/prometheus` → cluster `prometheus_stats`), emitted iff
`EnablePrometheus`. -/
def promVirtualHosts : String :=
  "\n            virtual_hosts:\n            - name: prometheus_stats\n              domains:\n              - \"*\"\n              routes:\n              - match:\n                  prefix: /stats/prometheus\n                route:\n                  cluster: prometheus_stats"

/-- Template lines 67-77: the `{{- if .EnablePrometheus }}` guard around
the scrape route inside the readiness listener's route table. -/
def promScrapeRouteBlocks (p : bootstrapParameters) : List String :=
  if p.EnablePrometheus then [promVirtualHosts] else []

/-- Template lines 51-89: `static_resources:` with the readiness listener
(always present) and, iff `EnablePrometheus`, the scrape route. -/
def listenersSection (p : bootstrapParameters) : String :=
  "\nstatic_resources:\n  listeners:\n  - name: envoy-gateway-proxy-ready-"
    ++ p.ReadyServer.Address
    ++ "-"
    ++ intDecimal p.ReadyServer.Port
    ++ "\n    address:\n      socket_address:\n        address: "
    ++ p.ReadyServer.Address
    ++ "\n        port_value: "
    ++ intDecimal p.ReadyServer.Port
    ++ "\n        protocol: TCP\n    filter_chains:\n    - filters:\n      - name: envoy.filters.network.http_connection_manager\n        typed_config:\n          \"@type\": type.googleapis.com/envoy.extensions.filters.network.http_connection_manager.v3.HttpConnectionManager\n          stat_prefix: eg-ready-http\n          route_config:\n            name: local_route"
    ++ String.join (promScrapeRouteBlocks p)
    ++ "\n          http_filters:\n          - name: envoy.filters.http.health_check\n            typed_config:\n              \"@type\": type.googleapis.com/envoy.extensions.filters.http.health_check.v3.HealthCheck\n              pass_through_mode: false\n              headers:\n              - name: \":path\"\n                string_match:\n                  exact: "
    ++ p.ReadyServer.ReadinessPath
    ++ "\n          - name: envoy.filters.http.router\n            typed_config:\n              \"@type\": type.googleapis.com/envoy.extensions.filters.http.router.v3.Router"

/-- Template lines 92-104: the `prometheus_stats` cluster, bound to the
admin server's address and port, emitted iff `EnablePrometheus`. -/
def prometheusClusterBlock (a : adminServerParameters) : String :=
  "\n  - name: prometheus_stats\n    connect_timeout: 0.250s\n    type: STATIC\n    lb_policy: ROUND_ROBIN\n    load_assignment:\n      cluster_name: prometheus_stats\n      endpoints:\n      - lb_endpoints:\n        - endpoint:\n            address:\n              socket_address:\n                address: "
    ++ a.Address
    ++ "\n                port_value: "
    ++ intDecimal a.Port

/-- The cluster name `otel_metric_sink_{{ $idx }}` interpolated at
template lines 48, 107 and 117. -/
def otelClusterName (idx : Nat) : String :=
  "otel_metric_sink_" ++ natDecimalStr idx

/-- Template lines 107-124: one metrics-sink upstream cluster, named by
its zero-based loop index over `.OtelMetricSinks` (the interpolated name
is `otelClusterName idx`). -/
def otelClusterBlock (idx : Nat) (s : metricSink) : String :=
  "\n  - name: otel_metric_sink_"
    ++ natDecimalStr idx
    ++ "\n    connect_timeout: 0.250s\n    type: STRICT_DNS\n    typed_extension_protocol_options:\n      envoy.extensions.upstreams.http.v3.HttpProtocolOptions:\n        \"@type\": \"type.googleapis.com/envoy.extensions.upstreams.http.v3.HttpProtocolOptions\"\n        explicit_http_config:\n          http2_protocol_options: \x7b\x7d\n    lb_policy: ROUND_ROBIN\n    load_assignment:\n      cluster_name: otel_metric_sink_"
    ++ natDecimalStr idx
    ++ "\n      endpoints:\n      - lb_endpoints:\n        - endpoint:\n            address:\n              socket_address:\n                address: "
    ++ s.Address
    ++ "\n                port_value: "
    ++ intDecimal s.Port

/-- Template lines 126-161: the `xds_cluster` (mutual TLS, SDS paths). -/
def xdsClusterBlock (x : xdsServerParameters) : String :=
  "\n  - connect_timeout: 10s\n    load_assignment:\n      cluster_name: xds_cluster\n      endpoints:\n      - lb_endpoints:\n        - endpoint:\n            address:\n              socket_address:\n                address: "
    ++ x.Address
    ++ "\n                port_value: "
    ++ intDecimal x.Port
    ++ "\n    typed_extension_protocol_options:\n      envoy.extensions.upstreams.http.v3.HttpProtocolOptions:\n        \"@type\": \"type.googleapis.com/envoy.extensions.upstreams.http.v3.HttpProtocolOptions\"\n        explicit_http_config:\n          http2_protocol_options: \x7b\x7d\n    name: xds_cluster\n    type: STRICT_DNS\n    transport_socket:\n      name: envoy.transport_sockets.tls\n      typed_config:\n        \"@type\": type.googleapis.com/envoy.extensions.transport_sockets.tls.v3.UpstreamTlsContext\n        common_tls_context:\n          tls_params:\n            tls_maximum_protocol_version: TLSv1_3\n          tls_certificate_sds_secret_configs:\n          - name: xds_certificate\n            sds_config:\n              path_config_source:\n                path: \"/sds/xds-certificate.json\"\n              resource_api_version: V3\n          validation_context_sds_secret_config:\n            name: xds_trusted_ca\n            sds_config:\n              path_config_source:\n                path: \"/sds/xds-trusted-ca.json\"\n              resource_api_version: V3"

/-- Template lines 106-125: the metrics-sink clusters, one per entry of
`.OtelMetricSinks`, in order, indexed by the zero-based loop index. -/
def otelSinkClusterBlocks (p : bootstrapParameters) : List String :=
  p.OtelMetricSinks.enum.map (fun q => otelClusterBlock q.1 q.2)

/-- Template lines 90-161: the members of the `clusters:` list — the
optional `prometheus_stats` cluster, the metrics-sink clusters, then the
`xds_cluster`. -/
def clustersBlocks (p : bootstrapParameters) : List String :=
  (if p.EnablePrometheus then [prometheusClusterBlock p.AdminServer] else [])
    ++ otelSinkClusterBlocks p
    ++ [xdsClusterBlock p.XdsServer]

/-- Template lines 90-161: the `clusters:` section. -/
def clustersSection (p : bootstrapParameters) : String :=
  "\n  clusters:" ++ String.join (clustersBlocks p)

/-- Template lines 162-169: the `layered_runtime:` section (fixed text),
with the file's trailing newline. -/
def layeredRuntimeSection : String :=
  "\nlayered_runtime:\n  layers:\n  - name: runtime-0\n    rtds_layer:\n      rtds_config:\n        ads: \x7b\x7d\n        resource_api_version: V3\n      name: runtime-0\n"

/-- Execution of the compiled template `bootstrapTmpl` on a parameter
aggregate: the concatenation of the sections above. -/
def renderTemplate (p : bootstrapParameters) : String :=
  adminSection p.AdminServer
    ++ statsConfigSection p.ProxyStatsMatcher
    ++ dynamicResourcesSection
    ++ statsSinksSection p.OtelMetricSinks
    ++ listenersSection p
    ++ clustersSection p
    ++ layeredRuntimeSection

/-- `bootstrapTmpl.Execute(buf, parameters)`: the template is parsed once
at process start through `template.Must`, and executing it over a
`bootstrapParameters` value always succeeds, producing `renderTemplate`;
the error branch of `Execute` is represented by the `Except.error` case. -/
def executeTemplate (p : bootstrapParameters) : Except String String :=
  Except.ok (renderTemplate p)

/-- `(*bootstrapConfig).render`: executes the template into a buffer and
stores the result in the `rendered` field, or wraps the failure. -/
def bootstrapConfig.render (b : bootstrapConfig) : Except String bootstrapConfig :=
  match executeTemplate b.parameters with
  | Except.error e => Except.error ("failed to render bootstrap config: " ++ e)
  | Except.ok s => Except.ok { b with rendered := s }

/-! ### `GetRenderedBootstrapConfig` (bootstrap.go lines 144-213) -/

/-- The composite deduplication key
`fmt.Sprintf("%s:%d", sink.OpenTelemetry.Host, sink.OpenTelemetry.Port)`
(bootstrap.go line 163). -/
def sinkAddr (host : String) (port : Int) : String :=
  host ++ ":" ++ intDecimal port

/-- The key of an already-built `metricSink`. -/
def metricSink.key (m : metricSink) : String := sinkAddr m.Address m.Port

/-- The sink loop of `GetRenderedBootstrapConfig` (bootstrap.go lines
156-173): entries without an OpenTelemetry target are skipped; the
`addresses` string set is modelled by the list `seen` of inserted keys;
a sink whose key was already inserted is skipped, otherwise its key is
inserted and a `metricSink` is appended. -/
def processSinks : List ProxySink → List String → List metricSink
  | [], _ => []
  | s :: rest, seen =>
    match s.OpenTelemetry with
    | none => processSinks rest seen
    | some o =>
      let addr := sinkAddr o.Host o.Port
      if addr ∈ seen then processSinks rest seen
      else { Address := o.Host, Port := o.Port } :: processSinks rest (addr :: seen)

/-- `strings.Split(RequiredEnvoyStatsMatcherInclusionPrefixes, ",")`
(bootstrap.go line 183): the mandatory baseline prefix entries. -/
def requiredStatsPrefixList : List String :=
  goSplit RequiredEnvoyStatsMatcherInclusionPrefixes ','

/-- The parameter-building part of `GetRenderedBootstrapConfig`
(bootstrap.go lines 145-206): Prometheus flag, deduplicated sinks,
stats matcher with the baseline appended, and the fixed infrastructure
servers. -/
def buildParameters (proxyMetrics : Option ProxyMetrics) : bootstrapParameters :=
  let enablePrometheus : Bool :=
    match proxyMetrics with
    | some pm => pm.Prometheus.isSome
    | none => false
  let metricSinks : List metricSink :=
    match proxyMetrics with
    | some pm => processSinks pm.Sinks []
    | none => []
  let psm : ProxyStatsMatcherParameters :=
    match proxyMetrics with
    | some pm =>
      match pm.ProxyStatsMatcher with
      | some m =>
        { InclusionPrefixs := m.InclusionPrefixs
          InclusionSuffixs := m.InclusionSuffixs
          InclusionRegexps := m.InclusionRegexps }
      | none => { InclusionPrefixs := [], InclusionSuffixs := [], InclusionRegexps := [] }
    | none => { InclusionPrefixs := [], InclusionSuffixs := [], InclusionRegexps := [] }
  { XdsServer :=
      { Address := envoyGatewayXdsServerHost
        Port := DefaultXdsServerPort }
    AdminServer :=
      { Address := envoyAdminAddress
        Port := envoyAdminPort
        AccessLogPath := envoyAdminAccessLogPath }
    ReadyServer :=
      { Address := envoyReadinessAddress
        Port := EnvoyReadinessPort
        ReadinessPath := EnvoyReadinessPath }
    EnablePrometheus := enablePrometheus
    OtelMetricSinks := metricSinks
    ProxyStatsMatcher :=
      { psm with InclusionPrefixs := psm.InclusionPrefixs ++ requiredStatsPrefixList } }

/-- `GetRenderedBootstrapConfig` (bootstrap.go lines 144-213): builds the
parameters, renders, and returns the Go pair `(string, error)` — either
the rendered document with no error, or the empty string with the
wrapped render error. -/
def GetRenderedBootstrapConfig (proxyMetrics : Option ProxyMetrics) : String × Option String :=
  let cfg : bootstrapConfig := { parameters := buildParameters proxyMetrics, rendered := "" }
  match cfg.render with
  | Except.error e => ("", some e)
  | Except.ok c => (c.rendered, none)

/-! ### Specification-side definitions

These follow the spec's words, for comparison with the code-derived
definitions above. -/

/-- The "host:port" key a policy sink contributes, if it carries an
OpenTelemetry target. -/
def otelKey (s : ProxySink) : Option String :=
  s.OpenTelemetry.map (fun o => sinkAddr o.Host o.Port)

/-- The keys of the sinks that carry an OpenTelemetry target, in input
order. -/
def otelKeys (sinks : List ProxySink) : List String :=
  sinks.filterMap otelKey

/-- First-occurrence deduplication relative to a set of already-seen
keys: a key in `seen` (or seen earlier in the list) is dropped, the rest
keep their relative order. -/
def distinctFirstFrom (seen : List String) : List String → List String
  | [] => []
  | k :: ks =>
    if k ∈ seen then distinctFirstFrom seen ks
    else k :: distinctFirstFrom (k :: seen) ks

/-- The distinct keys of a list, in first-occurrence order. -/
def distinctFirst (l : List String) : List String := distinctFirstFrom [] l

/-- The caller-supplied prefix entries: the policy's stats-matcher
prefixes, or the empty list when the policy or its override is absent. -/
def callerPrefixes (proxyMetrics : Option ProxyMetrics) : List String :=
  match proxyMetrics with
  | some pm =>
    match pm.ProxyStatsMatcher with
    | some m => m.InclusionPrefixs
    | none => []
  | none => []

/-- The caller-supplied suffix entries. -/
def callerSuffixes (proxyMetrics : Option ProxyMetrics) : List String :=
  match proxyMetrics with
  | some pm =>
    match pm.ProxyStatsMatcher with
    | some m => m.InclusionSuffixs
    | none => []
  | none => []

/-- The caller-supplied regex entries. -/
def callerRegexps (proxyMetrics : Option ProxyMetrics) : List String :=
  match proxyMetrics with
  | some pm =>
    match pm.ProxyStatsMatcher with
    | some m => m.InclusionRegexps
    | none => []
  | none => []

/-- The mandatory baseline prefix list, spelled out in baseline order. -/
def baselinePrefixes : List String :=
  [ "cluster_manager", "listener_manager", "server", "cluster.xds-grpc"]

/-- Marker identifying the `prometheus_stats` cluster block: the fixed
text every such block starts with. -/
def promClusterMarker : String := "\n  - name: prometheus_stats"

/-- Marker identifying a metrics-sink cluster block: the fixed text every
such block starts with. -/
def otelClusterMarker : String := "\n  - name: otel_metric_sink_"

/-- Whether a rendered cluster block is the `prometheus_stats` cluster. -/
def isPromClusterBlock (s : String) : Bool :=
  promClusterMarker.data.isPrefixOf s.data

/-- Whether a rendered cluster block is a metrics-sink cluster. -/
def isOtelClusterBlock (s : String) : Bool :=
  otelClusterMarker.data.isPrefixOf s.data

/-! ### Properties of decimal rendering -/

/-- The value of a digit string, inverse of `natDecimal`. -/
def decVal (l : List Char) : Nat :=
  l.foldl (fun a c => 10 * a + (c.toNat - 48)) 0

theorem digitChar_toNat : ∀ m, m < 10 → (digitChar m).toNat = 48 + m := by decide

theorem digitChar_is_digit : ∀ m, m < 10 →
    48 ≤ (digitChar m).toNat ∧ (digitChar m).toNat ≤ 57 := by decide

theorem natDecimal_ne_nil (n : Nat) : natDecimal n ≠ [] := by
  rw [natDecimal]
  split
  · simp
  · simp

theorem mem_natDecimal_is_digit (n : Nat) :
    ∀ c ∈ natDecimal n, 48 ≤ c.toNat ∧ c.toNat ≤ 57 := by
  induction n using natDecimal.induct with
  | case1 n h =>
    intro c hc
    rw [natDecimal, dif_pos h] at hc
    simp only [List.mem_singleton] at hc
    subst hc
    exact digitChar_is_digit n h
  | case2 n h ih =>
    intro c hc
    rw [natDecimal, dif_neg h] at hc
    rcases List.mem_append.mp hc with hc | hc
    · exact ih c hc
    · simp only [List.mem_singleton] at hc
      subst hc
      exact digitChar_is_digit _ (Nat.mod_lt _ (by omega))

theorem colon_not_mem_natDecimal (n : Nat) : ':' ∉ natDecimal n := by
  intro h
  have := mem_natDecimal_is_digit n _ h
  simp at this

theorem dash_not_mem_natDecimal (n : Nat) : '-' ∉ natDecimal n := by
  intro h
  have := mem_natDecimal_is_digit n _ h
  simp at this

theorem decVal_natDecimal (n : Nat) : decVal (natDecimal n) = n := by
  induction n using natDecimal.induct with
  | case1 n h =>
    rw [natDecimal, dif_pos h]
    simp [decVal, digitChar_toNat n h]
  | case2 n h ih =>
    rw [natDecimal, dif_neg h]
    unfold decVal at ih ⊢
    rw [List.foldl_append, ih]
    simp [digitChar_toNat _ (Nat.mod_lt n (by omega))]
    omega

theorem natDecimal_injective {a b : Nat} (h : natDecimal a = natDecimal b) : a = b := by
  have := decVal_natDecimal a
  rw [h, decVal_natDecimal] at this
  omega

theorem intDecimal_data (i : Int) :
    (intDecimal i).data =
      if i < 0 then '-' :: natDecimal i.natAbs else natDecimal i.natAbs := by
  unfold intDecimal
  split <;> rfl

theorem colon_not_mem_intDecimal (i : Int) : ':' ∉ (intDecimal i).data := by
  rw [intDecimal_data]
  split
  · intro h
    rcases List.mem_cons.mp h with h | h
    · exact absurd h (by decide)
    · exact colon_not_mem_natDecimal _ h
  · exact colon_not_mem_natDecimal _

theorem intDecimal_injective {a b : Int} (h : intDecimal a = intDecimal b) : a = b := by
  have hd : (intDecimal a).data = (intDecimal b).data := by rw [h]
  rw [intDecimal_data, intDecimal_data] at hd
  by_cases ha : a < 0 <;> by_cases hb : b < 0
  · rw [if_pos ha, if_pos hb] at hd
    have := natDecimal_injective (List.cons_injective hd)
    omega
  · rw [if_pos ha, if_neg hb] at hd
    exfalso
    exact dash_not_mem_natDecimal b.natAbs (hd ▸ List.mem_cons_self _ _)
  · rw [if_neg ha, if_pos hb] at hd
    exfalso
    exact dash_not_mem_natDecimal a.natAbs (hd ▸ List.mem_cons_self _ _)
  · rw [if_neg ha, if_neg hb] at hd
    have := natDecimal_injective hd
    omega

/-! ### Injectivity of the composite key -/

/-- Splitting a character list at a separator occurrence is unambiguous
when the part after the separator is separator-free: the decomposition at
the last occurrence is unique. -/
theorem split_at_last_sep (sep : Char) :
    ∀ b1 a1 b2 a2 : List Char, sep ∉ b1 → sep ∉ b2 →
      a1 ++ sep :: b1 = a2 ++ sep :: b2 → a1 = a2 ∧ b1 = b2 := by
  have first : ∀ xs ys xs' ys' : List Char, sep ∉ xs → sep ∉ xs' →
      xs ++ sep :: ys = xs' ++ sep :: ys' → xs = xs' ∧ ys = ys' := by
    intro xs
    induction xs with
    | nil =>
      intro ys xs' ys' _ hxs' h
      cases xs' with
      | nil => simpa using h
      | cons c t =>
        exfalso
        simp only [List.nil_append, List.cons_append, List.cons.injEq] at h
        exact hxs' (h.1 ▸ List.mem_cons_self _ _)
    | cons c t ih =>
      intro ys xs' ys' hxs hxs' h
      cases xs' with
      | nil =>
        exfalso
        simp only [List.cons_append, List.nil_append, List.cons.injEq] at h
        exact hxs (h.1 ▸ List.mem_cons_self _ _)
      | cons c' t' =>
        simp only [List.cons_append, List.cons.injEq] at h
        obtain ⟨hc, hrest⟩ := h
        have hmt : sep ∉ t := fun hm => hxs (List.mem_cons_of_mem _ hm)
        have hmt' : sep ∉ t' := fun hm => hxs' (List.mem_cons_of_mem _ hm)
        obtain ⟨h1, h2⟩ := ih ys t' ys' hmt hmt' hrest
        exact ⟨by rw [hc, h1], h2⟩
  intro b1 a1 b2 a2 hb1 hb2 h
  have hrev : b1.reverse ++ sep :: a1.reverse = b2.reverse ++ sep :: a2.reverse := by
    have := congrArg List.reverse h
    simpa [List.reverse_append] using this
  have hnb1 : sep ∉ b1.reverse := by simpa using hb1
  have hnb2 : sep ∉ b2.reverse := by simpa using hb2
  obtain ⟨h1, h2⟩ := first _ _ _ _ hnb1 hnb2 hrev
  exact ⟨List.reverse_injective h2, List.reverse_injective h1⟩

theorem sinkAddr_data (host : String) (port : Int) :
    (sinkAddr host port).data = host.data ++ ':' :: (intDecimal port).data := by
  unfold sinkAddr
  rw [String.data_append, String.data_append]
  simp

/-- The composite key determines the host and the port: the decimal port
suffix contains no colon, so the split at the key's last colon is
unambiguous, and decimal rendering is injective. -/
theorem sinkAddr_injective {h1 h2 : String} {p1 p2 : Int}
    (h : sinkAddr h1 p1 = sinkAddr h2 p2) : h1 = h2 ∧ p1 = p2 := by
  have hd := congrArg String.data h
  rw [sinkAddr_data, sinkAddr_data] at hd
  obtain ⟨ha, hb⟩ :=
    split_at_last_sep ':' _ _ _ _ (colon_not_mem_intDecimal p1) (colon_not_mem_intDecimal p2) hd
  refine ⟨String.ext ha, intDecimal_injective (String.ext hb)⟩


/-! ### Properties of the sink deduplication -/

theorem distinctFirstFrom_nil (seen : List String) : distinctFirstFrom seen [] = [] := rfl

theorem distinctFirstFrom_cons (seen : List String) (k : String) (ks : List String) :
    distinctFirstFrom seen (k :: ks) =
      if k ∈ seen then distinctFirstFrom seen ks
      else k :: distinctFirstFrom (k :: seen) ks := rfl

theorem processSinks_nil (seen : List String) : processSinks [] seen = [] := rfl

theorem processSinks_cons_none (rest : List ProxySink) (seen : List String) :
    processSinks ({ OpenTelemetry := none } :: rest) seen = processSinks rest seen := rfl

theorem processSinks_cons_some (o : ProxyOpenTelemetrySink) (rest : List ProxySink)
    (seen : List String) :
    processSinks ({ OpenTelemetry := some o } :: rest) seen =
      if sinkAddr o.Host o.Port ∈ seen then processSinks rest seen
      else { Address := o.Host, Port := o.Port } :: processSinks rest (sinkAddr o.Host o.Port :: seen) := rfl

theorem otelKeys_nil : otelKeys [] = [] := rfl

theorem otelKeys_cons_none (rest : List ProxySink) :
    otelKeys ({ OpenTelemetry := none } :: rest) = otelKeys rest := by
  simp [otelKeys, otelKey]

theorem otelKeys_cons_some (o : ProxyOpenTelemetrySink) (rest : List ProxySink) :
    otelKeys ({ OpenTelemetry := some o } :: rest) =
      sinkAddr o.Host o.Port :: otelKeys rest := by
  simp [otelKeys, otelKey]

theorem mem_distinctFirstFrom (l : List String) :
    ∀ seen a, a ∈ distinctFirstFrom seen l ↔ (a ∈ l ∧ a ∉ seen) := by
  induction l with
  | nil => intro seen a; simp [distinctFirstFrom_nil]
  | cons k ks ih =>
    intro seen a
    rw [distinctFirstFrom_cons]
    by_cases hk : k ∈ seen
    · rw [if_pos hk, ih]
      constructor
      · rintro ⟨h1, h2⟩
        exact ⟨List.mem_cons_of_mem _ h1, h2⟩
      · rintro ⟨h1, h2⟩
        rcases List.mem_cons.mp h1 with rfl | h1
        · exact absurd hk h2
        · exact ⟨h1, h2⟩
    · rw [if_neg hk]
      constructor
      · intro h
        rcases List.mem_cons.mp h with rfl | h
        · exact ⟨List.mem_cons_self _ _, hk⟩
        · obtain ⟨h1, h2⟩ := (ih _ _).mp h
          refine ⟨List.mem_cons_of_mem _ h1, fun hs => h2 (List.mem_cons_of_mem _ hs)⟩
      · rintro ⟨h1, h2⟩
        rcases List.mem_cons.mp h1 with rfl | h1
        · exact List.mem_cons_self _ _
        · by_cases hak : a = k
          · exact hak ▸ List.mem_cons_self _ _
          · exact List.mem_cons_of_mem _
              ((ih _ _).mpr ⟨h1, fun hs => (List.mem_cons.mp hs).elim hak h2⟩)

theorem nodup_distinctFirstFrom (l : List String) :
    ∀ seen, (distinctFirstFrom seen l).Nodup := by
  induction l with
  | nil => intro seen; simp [distinctFirstFrom_nil]
  | cons k ks ih =>
    intro seen
    rw [distinctFirstFrom_cons]
    by_cases hk : k ∈ seen
    · rw [if_pos hk]; exact ih seen
    · rw [if_neg hk]
      refine List.Nodup.cons ?_ (ih (k :: seen))
      intro hmem
      exact ((mem_distinctFirstFrom ks _ _).mp hmem).2 (List.mem_cons_self _ _)

/-- The sink loop emits exactly the first occurrence of every key not yet
seen: the keys of the produced `metricSink`s are the deduplicated keys of
the OpenTelemetry-carrying input sinks, in first-occurrence order. -/
theorem processSinks_map_key (sinks : List ProxySink) :
    ∀ seen, (processSinks sinks seen).map metricSink.key
      = distinctFirstFrom seen (otelKeys sinks) := by
  induction sinks with
  | nil => intro seen; simp [processSinks_nil, otelKeys_nil, distinctFirstFrom_nil]
  | cons s rest ih =>
    intro seen
    obtain ⟨ot⟩ := s
    cases ot with
    | none => rw [processSinks_cons_none, otelKeys_cons_none, ih]
    | some o =>
      rw [processSinks_cons_some, otelKeys_cons_some, distinctFirstFrom_cons]
      by_cases hmem : sinkAddr o.Host o.Port ∈ seen
      · rw [if_pos hmem, if_pos hmem, ih]
      · rw [if_neg hmem, if_neg hmem, List.map_cons, ih]
        rfl

/-- A sink entry without an OpenTelemetry target is skipped entirely:
removing it anywhere in the input leaves the emitted sink list unchanged. -/
theorem processSinks_skip_non_otel (pre : List ProxySink) :
    ∀ (s : ProxySink) (post : List ProxySink) (seen : List String),
      s.OpenTelemetry = none →
      processSinks (pre ++ s :: post) seen = processSinks (pre ++ post) seen := by
  induction pre with
  | nil =>
    intro s post seen h
    obtain ⟨ot⟩ := s
    cases h
    simp only [List.nil_append]
    rw [processSinks_cons_none]
  | cons q qre ih =>
    intro s post seen h
    obtain ⟨qt⟩ := q
    simp only [List.cons_append]
    cases qt with
    | none => rw [processSinks_cons_none, processSinks_cons_none, ih s post seen h]
    | some o =>
      rw [processSinks_cons_some, processSinks_cons_some]
      by_cases hmem : sinkAddr o.Host o.Port ∈ seen
      · rw [if_pos hmem, if_pos hmem, ih s post seen h]
      · rw [if_neg hmem, if_neg hmem, ih s post _ h]

/-! ### Classifying rendered cluster blocks by their leading text -/

theorem isPrefixOf_append_of_isPrefixOf (l₁ l₂ r : List Char)
    (h : l₁.isPrefixOf l₂ = true) : l₁.isPrefixOf (l₂ ++ r) = true := by
  rw [List.isPrefixOf_iff_prefix] at h ⊢
  exact h.trans (List.prefix_append l₂ r)

theorem isPrefixOf_append_false (l₁ l₂ r : List Char)
    (hlen : l₁.length ≤ l₂.length) (h : l₁.isPrefixOf l₂ = false) :
    l₁.isPrefixOf (l₂ ++ r) = false := by
  rw [Bool.eq_false_iff] at h ⊢
  intro hc
  apply h
  rw [List.isPrefixOf_iff_prefix] at hc ⊢
  rw [List.prefix_iff_eq_take] at hc ⊢
  rwa [List.take_append_of_le_length hlen] at hc

theorem isPromClusterBlock_promBlock (a : adminServerParameters) :
    isPromClusterBlock (prometheusClusterBlock a) = true := by
  unfold isPromClusterBlock prometheusClusterBlock
  simp only [String.data_append, List.append_assoc]
  exact isPrefixOf_append_of_isPrefixOf _ _ _ (by decide)

theorem isOtelClusterBlock_promBlock (a : adminServerParameters) :
    isOtelClusterBlock (prometheusClusterBlock a) = false := by
  unfold isOtelClusterBlock prometheusClusterBlock
  simp only [String.data_append, List.append_assoc]
  exact isPrefixOf_append_false _ _ _ (by decide) (by decide)

theorem isOtelClusterBlock_otelBlock (idx : Nat) (s : metricSink) :
    isOtelClusterBlock (otelClusterBlock idx s) = true := by
  unfold isOtelClusterBlock otelClusterBlock
  simp only [String.data_append, List.append_assoc]
  exact isPrefixOf_append_of_isPrefixOf _ _ _ (by decide)

theorem isPromClusterBlock_otelBlock (idx : Nat) (s : metricSink) :
    isPromClusterBlock (otelClusterBlock idx s) = false := by
  unfold isPromClusterBlock otelClusterBlock
  simp only [String.data_append, List.append_assoc]
  exact isPrefixOf_append_false _ _ _ (by decide) (by decide)

theorem isPromClusterBlock_xdsBlock (x : xdsServerParameters) :
    isPromClusterBlock (xdsClusterBlock x) = false := by
  unfold isPromClusterBlock xdsClusterBlock
  simp only [String.data_append, List.append_assoc]
  exact isPrefixOf_append_false _ _ _ (by decide) (by decide)

theorem isOtelClusterBlock_xdsBlock (x : xdsServerParameters) :
    isOtelClusterBlock (xdsClusterBlock x) = false := by
  unfold isOtelClusterBlock xdsClusterBlock
  simp only [String.data_append, List.append_assoc]
  exact isPrefixOf_append_false _ _ _ (by decide) (by decide)

/-- Every metrics-sink cluster block carries, as its `- name:` field, the
cluster name `otelClusterName idx` formed from its loop index. -/
theorem otelClusterBlock_name (idx : Nat) (s : metricSink) :
    ∃ r : String, otelClusterBlock idx s = "\n  - name: " ++ otelClusterName idx ++ r := by
  refine ⟨"\n    connect_timeout: 0.250s\n    type: STRICT_DNS\n    typed_extension_protocol_options:\n      envoy.extensions.upstreams.http.v3.HttpProtocolOptions:\n        \"@type\": \"type.googleapis.com/envoy.extensions.upstreams.http.v3.HttpProtocolOptions\"\n        explicit_http_config:\n          http2_protocol_options: \x7b\x7d\n    lb_policy: ROUND_ROBIN\n    load_assignment:\n      cluster_name: "
    ++ otelClusterName idx
    ++ "\n      endpoints:\n      - lb_endpoints:\n        - endpoint:\n            address:\n              socket_address:\n                address: "
    ++ s.Address
    ++ "\n                port_value: "
    ++ intDecimal s.Port, ?_⟩
  apply String.ext
  unfold otelClusterBlock otelClusterName natDecimalStr
  simp [String.data_append, List.append_assoc]

/-! ### Counting cluster blocks -/

theorem map_uncurry_zip {α β γ : Type} (f : α → β → γ) :
    ∀ (as : List α) (bs : List β),
      (as.zip bs).map (fun q => f q.1 q.2) = List.zipWith f as bs := by
  intro as
  induction as with
  | nil => intro bs; simp
  | cons a tl ih =>
    intro bs
    cases bs with
    | nil => simp
    | cons b bt => simp [ih]

/-- The metrics-sink cluster blocks are the sinks zipped with the
consecutive indices `0, 1, ...`: indices are assigned after
deduplication, in the deduplicated sequence's order, with no gaps. -/
theorem otelSinkClusterBlocks_eq_zipWith (p : bootstrapParameters) :
    otelSinkClusterBlocks p
      = List.zipWith otelClusterBlock (List.range p.OtelMetricSinks.length) p.OtelMetricSinks := by
  unfold otelSinkClusterBlocks
  rw [List.enum_eq_zip_range, map_uncurry_zip]

theorem length_otelSinkClusterBlocks (p : bootstrapParameters) :
    (otelSinkClusterBlocks p).length = p.OtelMetricSinks.length := by
  unfold otelSinkClusterBlocks
  simp

theorem countP_otel_otelSinkClusterBlocks (p : bootstrapParameters) :
    (otelSinkClusterBlocks p).countP isOtelClusterBlock = p.OtelMetricSinks.length := by
  rw [← length_otelSinkClusterBlocks p]
  rw [List.countP_eq_length]
  intro a ha
  unfold otelSinkClusterBlocks at ha
  obtain ⟨q, _, rfl⟩ := List.mem_map.mp ha
  exact isOtelClusterBlock_otelBlock q.1 q.2

theorem countP_prom_otelSinkClusterBlocks (p : bootstrapParameters) :
    (otelSinkClusterBlocks p).countP isPromClusterBlock = 0 := by
  rw [List.countP_eq_zero]
  intro a ha
  unfold otelSinkClusterBlocks at ha
  obtain ⟨q, _, rfl⟩ := List.mem_map.mp ha
  simp [isPromClusterBlock_otelBlock q.1 q.2]

/-- Exactly one `prometheus_stats` cluster block appears in the clusters
list when `EnablePrometheus` holds, and none otherwise. -/
theorem countP_prom_clustersBlocks (p : bootstrapParameters) :
    (clustersBlocks p).countP isPromClusterBlock
      = (if p.EnablePrometheus then 1 else 0) := by
  unfold clustersBlocks
  rw [List.countP_append, List.countP_append, countP_prom_otelSinkClusterBlocks]
  rw [List.countP_cons, List.countP_nil, isPromClusterBlock_xdsBlock]
  cases hp : p.EnablePrometheus with
  | false => simp
  | true =>
    rw [if_pos rfl]
    rw [List.countP_cons, List.countP_nil, isPromClusterBlock_promBlock]
    simp

/-- The clusters list contains exactly one metrics-sink cluster block per
deduplicated sink. -/
theorem countP_otel_clustersBlocks (p : bootstrapParameters) :
    (clustersBlocks p).countP isOtelClusterBlock = p.OtelMetricSinks.length := by
  unfold clustersBlocks
  rw [List.countP_append, List.countP_append, countP_otel_otelSinkClusterBlocks]
  rw [List.countP_cons, List.countP_nil, isOtelClusterBlock_xdsBlock]
  cases hp : p.EnablePrometheus with
  | false => simp
  | true =>
    rw [if_pos rfl]
    rw [List.countP_cons, List.countP_nil, isOtelClusterBlock_promBlock]
    simp

/-- `strings.Split` of the required-prefix constant yields the baseline
list, in baseline-defined order. -/
theorem requiredStatsPrefixList_eq : requiredStatsPrefixList = baselinePrefixes := by decide

/-! ### Field equations of `buildParameters` -/

theorem buildParameters_XdsServer (pm : Option ProxyMetrics) :
    (buildParameters pm).XdsServer
      = { Address := envoyGatewayXdsServerHost, Port := DefaultXdsServerPort } := by
  cases pm <;> rfl

theorem buildParameters_AdminServer (pm : Option ProxyMetrics) :
    (buildParameters pm).AdminServer
      = { Address := envoyAdminAddress, Port := envoyAdminPort,
          AccessLogPath := envoyAdminAccessLogPath } := by
  cases pm <;> rfl

theorem buildParameters_ReadyServer (pm : Option ProxyMetrics) :
    (buildParameters pm).ReadyServer
      = { Address := envoyReadinessAddress, Port := EnvoyReadinessPort,
          ReadinessPath := EnvoyReadinessPath } := by
  cases pm <;> rfl

theorem buildParameters_EnablePrometheus_none :
    (buildParameters none).EnablePrometheus = false := rfl

theorem buildParameters_EnablePrometheus_some (m : ProxyMetrics) :
    (buildParameters (some m)).EnablePrometheus = m.Prometheus.isSome := rfl

theorem buildParameters_OtelMetricSinks_none :
    (buildParameters none).OtelMetricSinks = [] := rfl

theorem buildParameters_OtelMetricSinks_some (m : ProxyMetrics) :
    (buildParameters (some m)).OtelMetricSinks = processSinks m.Sinks [] := rfl

theorem buildParameters_InclusionPrefixs (pm : Option ProxyMetrics) :
    (buildParameters pm).ProxyStatsMatcher.InclusionPrefixs
      = callerPrefixes pm ++ requiredStatsPrefixList := by
  cases pm with
  | none => rfl
  | some m =>
    obtain ⟨prom, sinks, psm⟩ := m
    cases psm <;> rfl

theorem buildParameters_InclusionSuffixs (pm : Option ProxyMetrics) :
    (buildParameters pm).ProxyStatsMatcher.InclusionSuffixs = callerSuffixes pm := by
  cases pm with
  | none => rfl
  | some m =>
    obtain ⟨prom, sinks, psm⟩ := m
    cases psm <;> rfl

theorem buildParameters_InclusionRegexps (pm : Option ProxyMetrics) :
    (buildParameters pm).ProxyStatsMatcher.InclusionRegexps = callerRegexps pm := by
  cases pm with
  | none => rfl
  | some m =>
    obtain ⟨prom, sinks, psm⟩ := m
    cases psm <;> rfl

/-- When every input sink lacks an OpenTelemetry target, the sink loop
emits nothing. -/
theorem processSinks_eq_nil_of_no_otel (sinks : List ProxySink)
    (h : ∀ s ∈ sinks, s.OpenTelemetry = none) :
    ∀ seen, processSinks sinks seen = [] := by
  induction sinks with
  | nil => intro seen; rfl
  | cons s rest ih =>
    intro seen
    obtain ⟨ot⟩ := s
    have hs := h _ (List.mem_cons_self _ _)
    cases hs
    rw [processSinks_cons_none]
    exact ih (fun q hq => h q (List.mem_cons_of_mem _ hq)) seen

/-! ### Claim theorems -/

/-- C4: when the policy object is entirely absent, rendering succeeds,
the output contains zero metrics-sink clusters, no Prometheus scrape
route or cluster, and the stats-matcher inclusion list is exactly the
mandatory baseline prefix list, with no suffix or regex patterns. -/
theorem C4_absent_policy_defaults :
    GetRenderedBootstrapConfig none = (renderTemplate (buildParameters none), none)
    ∧ (buildParameters none).OtelMetricSinks = []
    ∧ statsSinksSection (buildParameters none).OtelMetricSinks = ""
    ∧ (buildParameters none).EnablePrometheus = false
    ∧ promScrapeRouteBlocks (buildParameters none) = []
    ∧ clustersBlocks (buildParameters none)
        = [xdsClusterBlock (buildParameters none).XdsServer]
    ∧ (buildParameters none).ProxyStatsMatcher
        = { InclusionPrefixs := baselinePrefixes,
            InclusionSuffixs := [], InclusionRegexps := [] }
    ∧ patternsList (buildParameters none).ProxyStatsMatcher
        = baselinePrefixes.map prefixPattern := by
  refine ⟨rfl, rfl, rfl, rfl, rfl, rfl, ?_, ?_⟩ <;> rfl

/-- C6: the XdsServer, AdminServer and ReadyServer fields are always the
same fixed infrastructure constants (envoy-gateway:18000; 127.0.0.1:19000
with access log /dev/null; 0.0.0.0:19001 with path /ready), independent
of the policy input. -/
theorem C6_fixed_infrastructure_fields (pm : Option ProxyMetrics) :
    (buildParameters pm).XdsServer = { Address := "envoy-gateway", Port := 18000 }
    ∧ (buildParameters pm).AdminServer
        = { Address := "127.0.0.1", Port := 19000, AccessLogPath := "/dev/null" }
    ∧ (buildParameters pm).ReadyServer
        = { Address := "0.0.0.0", Port := 19001, ReadinessPath := "/ready" } := by
  cases pm <;> exact ⟨rfl, rfl, rfl⟩

/-- C8: the top-level operation either returns the complete rendered
document with no error, or the empty string together with a wrapped
render error; a partially rendered document is never returned. -/
theorem C8_render_atomic (pm : Option ProxyMetrics) :
    (∃ doc, GetRenderedBootstrapConfig pm = (doc, none)
        ∧ doc = renderTemplate (buildParameters pm))
    ∨ (∃ e, GetRenderedBootstrapConfig pm = ("", some e)) :=
  Or.inl ⟨renderTemplate (buildParameters pm), rfl, rfl⟩

/-- C2: the rendered prefix-inclusion pattern list equals the
caller-supplied prefix entries in their given order followed by every
entry of the fixed mandatory baseline prefix list in baseline-defined
order; nothing is removed and no deduplication is performed between or
within the two parts. -/
theorem C2_prefixes_caller_then_baseline (pm : Option ProxyMetrics) :
    requiredStatsPrefixList = baselinePrefixes
    ∧ (buildParameters pm).ProxyStatsMatcher.InclusionPrefixs
        = callerPrefixes pm ++ baselinePrefixes
    ∧ patternsList (buildParameters pm).ProxyStatsMatcher
        = (callerPrefixes pm ++ baselinePrefixes).map prefixPattern
          ++ (callerSuffixes pm).map suffixPattern
          ++ (callerRegexps pm).map regexPattern := by
  refine ⟨requiredStatsPrefixList_eq, ?_, ?_⟩
  · rw [buildParameters_InclusionPrefixs, requiredStatsPrefixList_eq]
  · unfold patternsList
    rw [buildParameters_InclusionPrefixs, requiredStatsPrefixList_eq,
      buildParameters_InclusionSuffixs, buildParameters_InclusionRegexps]

/-- C3: the Prometheus scrape route and the prometheus_stats cluster
(bound to the fixed admin address and port) are rendered if and only if
the policy is present and its Prometheus sub-object is present; exactly
one of each appears when enabled, none otherwise. -/
theorem C3_prometheus_conditional_blocks (pm : Option ProxyMetrics) :
    ((buildParameters pm).EnablePrometheus = true
        ↔ ∃ m, pm = some m ∧ ∃ u, m.Prometheus = some u)
    ∧ (clustersBlocks (buildParameters pm)).countP isPromClusterBlock
        = (if (buildParameters pm).EnablePrometheus then 1 else 0)
    ∧ (promScrapeRouteBlocks (buildParameters pm)).length
        = (if (buildParameters pm).EnablePrometheus then 1 else 0)
    ∧ (buildParameters pm).AdminServer
        = { Address := envoyAdminAddress, Port := envoyAdminPort,
            AccessLogPath := envoyAdminAccessLogPath } := by
  refine ⟨?_, countP_prom_clustersBlocks _, ?_, buildParameters_AdminServer pm⟩
  · cases pm with
    | none =>
      simp [buildParameters_EnablePrometheus_none]
    | some m =>
      rw [buildParameters_EnablePrometheus_some]
      cases hp : m.Prometheus with
      | none => simp [hp]
      | some u => simp [hp]
  · unfold promScrapeRouteBlocks
    cases hp : (buildParameters pm).EnablePrometheus <;> simp

/-- C5: parameter building is total — for every policy input the full
parameter aggregate is produced and rendering succeeds without error —
and every sink entry lacking an OpenTelemetry target is skipped without
being counted and without producing an error. -/
theorem C5_total_build_and_skip (pm : Option ProxyMetrics) :
    GetRenderedBootstrapConfig pm = (renderTemplate (buildParameters pm), none)
    ∧ (∀ (pre : List ProxySink) (s : ProxySink) (post : List ProxySink)
        (seen : List String), s.OpenTelemetry = none →
        processSinks (pre ++ s :: post) seen = processSinks (pre ++ post) seen) :=
  ⟨rfl, fun pre s post seen h => processSinks_skip_non_otel pre s post seen h⟩

/-- Witness for C5 at a concrete input: the policy with one sink lacking
an OpenTelemetry target renders successfully and that sink contributes
nothing. -/
theorem C5_total_build_and_skip_witness :
    GetRenderedBootstrapConfig
        (some { Prometheus := none, Sinks := [{ OpenTelemetry := none }],
                ProxyStatsMatcher := none })
      = (renderTemplate (buildParameters
          (some { Prometheus := none, Sinks := [{ OpenTelemetry := none }],
                  ProxyStatsMatcher := none })), none)
    ∧ processSinks ([] ++ { OpenTelemetry := none } :: []) []
        = processSinks ([] ++ []) [] :=
  ⟨(C5_total_build_and_skip _).1,
    (C5_total_build_and_skip (some ⟨none, [⟨none⟩], none⟩)).2 [] ⟨none⟩ [] [] rfl⟩

/-- C7: rendering is a deterministic pure function of the parameter
aggregate: two configurations with equal parameters render to
byte-identical documents, and re-rendering an already-rendered
configuration reproduces it exactly, so any number of renders yields the
same bytes. -/
theorem C7_render_deterministic (b1 b2 c1 c2 : bootstrapConfig)
    (hp : b1.parameters = b2.parameters)
    (h1 : b1.render = Except.ok c1) (h2 : b2.render = Except.ok c2) :
    c1.rendered = c2.rendered ∧ c1.render = Except.ok c1 := by
  have e1 : c1 = bootstrapConfig.mk b1.parameters (renderTemplate b1.parameters) := by
    have hr : b1.render
        = Except.ok (bootstrapConfig.mk b1.parameters (renderTemplate b1.parameters)) := rfl
    rw [hr] at h1
    exact (Except.ok.injEq _ _).mp h1.symm
  have e2 : c2 = bootstrapConfig.mk b2.parameters (renderTemplate b2.parameters) := by
    have hr : b2.render
        = Except.ok (bootstrapConfig.mk b2.parameters (renderTemplate b2.parameters)) := rfl
    rw [hr] at h2
    exact (Except.ok.injEq _ _).mp h2.symm
  constructor
  · rw [e1, e2, hp]
  · rw [e1]
    rfl

/-- Witness for C7 at a concrete input: rendering the parameters of the
absent policy twice yields the same configuration. -/
theorem C7_render_deterministic_witness :
    (bootstrapConfig.mk (buildParameters none) (renderTemplate (buildParameters none))).rendered
      = (bootstrapConfig.mk (buildParameters none) (renderTemplate (buildParameters none))).rendered
    ∧ (bootstrapConfig.mk (buildParameters none) (renderTemplate (buildParameters none))).render
      = Except.ok (bootstrapConfig.mk (buildParameters none) (renderTemplate (buildParameters none))) :=
  C7_render_deterministic (bootstrapConfig.mk (buildParameters none) "")
    (bootstrapConfig.mk (buildParameters none) "") _ _ rfl rfl rfl

/-- C9: whenever the deduplicated sink list is empty — absent policy, no
sinks, or every sink lacking an OpenTelemetry target — the rendered
document omits the top-level stats_sinks key entirely. -/
theorem C9_stats_sinks_omitted_when_empty (pm : Option ProxyMetrics)
    (h : pm = none ∨ ∃ m, pm = some m ∧
      (m.Sinks = [] ∨ ∀ s ∈ m.Sinks, s.OpenTelemetry = none)) :
    (buildParameters pm).OtelMetricSinks = []
    ∧ statsSinksSection (buildParameters pm).OtelMetricSinks = "" := by
  have he : (buildParameters pm).OtelMetricSinks = [] := by
    rcases h with rfl | ⟨m, rfl, hm⟩
    · rfl
    · rw [buildParameters_OtelMetricSinks_some]
      rcases hm with hm | hm
      · rw [hm]
        rfl
      · exact processSinks_eq_nil_of_no_otel m.Sinks hm []
  exact ⟨he, by rw [he]; rfl⟩

/-- Witness for C9 at a concrete input: a policy whose single sink lacks
an OpenTelemetry target produces no stats_sinks section. -/
theorem C9_stats_sinks_omitted_when_empty_witness :
    (buildParameters (some ⟨none, [⟨none⟩], none⟩)).OtelMetricSinks = []
    ∧ statsSinksSection
        (buildParameters (some ⟨none, [⟨none⟩], none⟩)).OtelMetricSinks = "" :=
  C9_stats_sinks_omitted_when_empty (some ⟨none, [⟨none⟩], none⟩)
    (Or.inr ⟨_, rfl, Or.inr (by decide)⟩)

/-- C1: the clusters section contains exactly one metrics-sink upstream
cluster per distinct "host:port" key among the OpenTelemetry-carrying
sinks, their relative order equals first-occurrence order, and each block
is named otel_metric_sink_<i> where i is its consecutive zero-based
position in the deduplicated sequence (no gaps: indices are assigned
after deduplication). -/
theorem C1_sink_clusters_dedup_order_naming (m : ProxyMetrics) :
    ((buildParameters (some m)).OtelMetricSinks.map metricSink.key
        = distinctFirst (otelKeys m.Sinks))
    ∧ ((buildParameters (some m)).OtelMetricSinks.map metricSink.key).Nodup
    ∧ (∀ k, k ∈ (buildParameters (some m)).OtelMetricSinks.map metricSink.key
        ↔ k ∈ otelKeys m.Sinks)
    ∧ (clustersBlocks (buildParameters (some m))).countP isOtelClusterBlock
        = (distinctFirst (otelKeys m.Sinks)).length
    ∧ otelSinkClusterBlocks (buildParameters (some m))
        = List.zipWith otelClusterBlock
            (List.range (buildParameters (some m)).OtelMetricSinks.length)
            (buildParameters (some m)).OtelMetricSinks
    ∧ (∀ idx s, ∃ r : String,
        otelClusterBlock idx s = "\n  - name: " ++ otelClusterName idx ++ r) := by
  have hmap : (buildParameters (some m)).OtelMetricSinks.map metricSink.key
      = distinctFirst (otelKeys m.Sinks) := by
    rw [buildParameters_OtelMetricSinks_some]
    exact processSinks_map_key m.Sinks []
  refine ⟨hmap, ?_, ?_, ?_, otelSinkClusterBlocks_eq_zipWith _, otelClusterBlock_name⟩
  · rw [hmap]
    exact nodup_distinctFirstFrom _ _
  · intro k
    rw [hmap]
    unfold distinctFirst
    rw [mem_distinctFirstFrom]
    simp
  · rw [countP_otel_clustersBlocks, ← hmap, List.length_map]

/-- C10: the composite key is the host, a colon, and the decimal
rendering of the port, which contains no colon, so keys coincide exactly
when host and port both coincide; consequently every
OpenTelemetry-carrying input sink's (host, port) pair is represented in
the deduplicated output, and no two retained sinks share both host and
port — a later sink is dropped if and only if an earlier retained sink
has the same host and the same port. -/
theorem C10_key_injective_no_conflation (m : ProxyMetrics) :
    (∀ (h1 h2 : String) (p1 p2 : Int),
        sinkAddr h1 p1 = sinkAddr h2 p2 ↔ (h1 = h2 ∧ p1 = p2))
    ∧ (∀ s ∈ m.Sinks, ∀ o, s.OpenTelemetry = some o →
        ∃ ms ∈ (buildParameters (some m)).OtelMetricSinks,
          ms.Address = o.Host ∧ ms.Port = o.Port)
    ∧ List.Pairwise
        (fun a b : metricSink => a.Address ≠ b.Address ∨ a.Port ≠ b.Port)
        (buildParameters (some m)).OtelMetricSinks := by
  have hmap := processSinks_map_key m.Sinks []
  refine ⟨?_, ?_, ?_⟩
  · intro h1 h2 p1 p2
    constructor
    · exact sinkAddr_injective
    · rintro ⟨rfl, rfl⟩
      rfl
  · intro s hs o ho
    have hk : sinkAddr o.Host o.Port ∈ otelKeys m.Sinks := by
      unfold otelKeys
      exact List.mem_filterMap.mpr ⟨s, hs, by simp [otelKey, ho]⟩
    have hk2 : sinkAddr o.Host o.Port
        ∈ (processSinks m.Sinks []).map metricSink.key := by
      rw [hmap]
      exact (mem_distinctFirstFrom _ _ _).mpr ⟨hk, by simp⟩
    obtain ⟨ms, hms, hkey⟩ := List.mem_map.mp hk2
    obtain ⟨ha, hp⟩ := sinkAddr_injective hkey
    refine ⟨ms, ?_, ha, hp⟩
    rw [buildParameters_OtelMetricSinks_some]
    exact hms
  · rw [buildParameters_OtelMetricSinks_some]
    have hnodup : ((processSinks m.Sinks []).map metricSink.key).Nodup := by
      rw [hmap]
      exact nodup_distinctFirstFrom _ _
    have hpw := List.pairwise_map.mp hnodup
    refine hpw.imp ?_
    intro a b hne
    by_contra hcon
    push_neg at hcon
    apply hne
    unfold metricSink.key sinkAddr
    rw [hcon.1, hcon.2]

/-- Witness for C10 at a concrete input: a host string containing a colon
and digits ("a:b" with port 12, key "a:b:12") is not conflated with host
"a" and port 512; the second sink is retained in the output. -/
theorem C10_key_injective_no_conflation_witness :
    ∃ ms ∈ (buildParameters (some ⟨none,
        [⟨some ⟨"a:b", 12⟩⟩, ⟨some ⟨"a", 512⟩⟩], none⟩)).OtelMetricSinks,
      ms.Address = "a" ∧ ms.Port = 512 :=
  (C10_key_injective_no_conflation
      ⟨none, [⟨some ⟨"a:b", 12⟩⟩, ⟨some ⟨"a", 512⟩⟩], none⟩).2.1
    ⟨some ⟨"a", 512⟩⟩ (by decide) ⟨"a", 512⟩ rfl
